import Mathlib

/-!
Shallow embedding of the generic tag abstraction layer of `musa`
(`musa/tags/tagparser.py`): the `TagParser` base class, the artwork and
numbering value types, and the per-path instance cache of `Tags`.

Python dictionaries holding tag maps and native entries are embedded as
association lists; Python exceptions are embedded as an error type threaded
through `Except`, and methods that may raise after partial work return the
post-state alongside the result.  Byte strings are lists of byte values and
`unicode(value, utf-8)` is embedded by an executable strict UTF-8 decoder.
-/

namespace Musa

/-- Exceptions raised by the tag layer: `TagError`, `KeyError`,
`AlbumArtError` (caught in `__setitem__`), and the builtin `TypeError`,
`ValueError` and `IndexError` used by coercions. -/
inductive PErr where
  | tagError (msg : String)
  | keyError (msg : String)
  | albumArtError (msg : String)
  | typeError
  | valueError
  | indexError
deriving Repr, DecidableEq

/-- Values stored inside a native tag entry: unicode strings, integers, or
raw byte strings (Python 2 `str`). -/
inductive NVal where
  | ustr (s : String)
  | nint (n : Int)
  | bytes (b : List Nat)
deriving Repr, DecidableEq

/-- One native field stored value: a scalar or a list of values
(`__getitem__` wraps a scalar into a singleton list before coercing). -/
inductive EntryVal where
  | scalar (v : NVal)
  | vlist (l : List NVal)
deriving Repr, DecidableEq

/-- Decode one UTF-8 encoded code point list strictly (rejecting overlong
forms and surrogates, as the Python strict `utf-8` codec does); `fuel` bounds
the recursion by the length of the byte list. -/
def utf8DecodeFuel : Nat → List Nat → Option (List Char)
  | _, [] => some []
  | 0, _ :: _ => none
  | fuel + 1, b0 :: rest =>
    if b0 < 0x80 then
      (utf8DecodeFuel fuel rest).map (fun cs => Char.ofNat b0 :: cs)
    else if b0 < 0xC2 then none
    else if b0 ≤ 0xDF then
      match rest with
      | b1 :: r =>
        if 0x80 ≤ b1 && b1 ≤ 0xBF then
          (utf8DecodeFuel fuel r).map
            (fun cs => Char.ofNat ((b0 % 0x20) * 0x40 + b1 % 0x40) :: cs)
        else none
      | [] => none
    else if b0 ≤ 0xEF then
      match rest with
      | b1 :: b2 :: r =>
        let lo1 := if b0 = 0xE0 then 0xA0 else 0x80
        let hi1 := if b0 = 0xED then 0x9F else 0xBF
        if lo1 ≤ b1 && b1 ≤ hi1 && 0x80 ≤ b2 && b2 ≤ 0xBF then
          (utf8DecodeFuel fuel r).map
            (fun cs =>
              Char.ofNat ((b0 % 0x10) * 0x1000 + (b1 % 0x40) * 0x40 + b2 % 0x40) :: cs)
        else none
      | _ => none
    else if b0 ≤ 0xF4 then
      match rest with
      | b1 :: b2 :: b3 :: r =>
        let lo1 := if b0 = 0xF0 then 0x90 else 0x80
        let hi1 := if b0 = 0xF4 then 0x8F else 0xBF
        if lo1 ≤ b1 && b1 ≤ hi1 && 0x80 ≤ b2 && b2 ≤ 0xBF && 0x80 ≤ b3 && b3 ≤ 0xBF then
          (utf8DecodeFuel fuel r).map
            (fun cs =>
              Char.ofNat ((b0 % 8) * 0x40000 + (b1 % 0x40) * 0x1000 +
                (b2 % 0x40) * 0x40 + b3 % 0x40) :: cs)
        else none
      | _ => none
    else none

/-- Decoding of a byte string with the Python strict `utf-8` codec:
`some` of the decoded text, or `none` on a `UnicodeDecodeError`. -/
def utf8Decode (b : List Nat) : Option String :=
  (utf8DecodeFuel b.length b).map (fun cs => String.mk cs)

/-- Albumart payload object. Modelled from the spec: the `AlbumArt` class
lives in `musa/tags/albumart.py`, which is not part of the sources; per the
spec a payload is fully loaded when it holds non-null image bytes. -/
structure AlbumArt where
  image : Option (List Nat)
deriving Repr, DecidableEq

/-- Loaded-check of an albumart payload (`albumart.is_loaded`). -/
def AlbumArt.is_loaded (a : AlbumArt) : Bool :=
  a.image.isSome

/-- Python argument passed to `import_albumart`: either an actual `AlbumArt`
instance or an arbitrary other object (for the `isinstance` check). -/
inductive ArtArg where
  | art (a : AlbumArt)
  | other (descr : String)
deriving Repr, DecidableEq

/-- State of a `TrackAlbumart` object (`track` is kept as the track path;
in the source it is the parser object that owns this instance). -/
structure TrackAlbumart where
  track : String
  modified : Bool
  albumart : Option AlbumArt
deriving Repr, DecidableEq

/-- Embedding of `TrackAlbumart.import_albumart`: type check, loaded check,
then store the payload.  The method body contains no other assignment, so
the returned state on error is the receiver unchanged. -/
def TrackAlbumart.import_albumart (t : TrackAlbumart) (a : ArtArg) :
    Except PErr Unit × TrackAlbumart :=
  match a with
  | .other _ => (.error (.tagError ("Albumart must be AlbumArt instance")), t)
  | .art art =>
    if art.is_loaded then (.ok (), { t with albumart := some art })
    else (.error (.tagError ("Albumart to import is not loaded with image.")), t)

/-- Native tag entry: the opaque per-file container wrapped by a parser.
`saveCount` models the entry persistence side effects: it counts the
native writes performed by `entry.save()`. -/
structure NativeEntry where
  fields : List (String × EntryVal)
  saveCount : Nat
deriving Repr, DecidableEq

/-- Field lookup in the native entry (`field in self.entry` / `self.entry[field]`). -/
def entryLookup (e : NativeEntry) (f : String) : Option EntryVal :=
  (e.fields.find? (fun kv => kv.1 == f)).map Prod.snd

/-- Field removal from the native entry (`del self.entry[tag]`). -/
def entryDelete (e : NativeEntry) (f : String) : NativeEntry :=
  { e with fields := e.fields.filter (fun kv => !(kv.1 == f)) }

/-- Persistence operation of the native entry.  Modelled from the spec: the
concrete mutagen-style entry is an external dependency; its `save()` writes
the tag block to the file, counted here in `saveCount`. -/
def NativeEntry.save (e : NativeEntry) : NativeEntry :=
  { e with saveCount := e.saveCount + 1 }

/-- State of a `TagParser` instance.  `tag_map` is the per-codec canonical
name to native field list mapping; a `none` value embeds a map entry whose
field list is Python `None` (an internal reference, skipped by
`__field2tag__`).  `supports_albumart` and the child-class attributes other
than `albumart` are omitted: no modelled operation reads them. -/
structure TagParser where
  codec : String
  path : String
  tag_map : List (String × Option (List String))
  entry : NativeEntry
  modified : Bool
  albumart : TrackAlbumart
deriving Repr, DecidableEq

/-- Embedding of `TagParser.__tag2fields__`: first map entry whose name
equals the tag wins; an unmapped tag resolves to the literal singleton.
A `none` result embeds the Python `None` field list, over which the
caller iteration would raise `TypeError`. -/
def tag2fields (m : List (String × Option (List String))) (tag : String) :
    Option (List String) :=
  match m.find? (fun nt => nt.1 == tag) with
  | some nt => nt.2
  | none => some [tag]

/-- Embedding of `TagParser.__field2tag__`: first map entry containing the
field wins, entries with a `None` field list are skipped, an unmapped field
maps to itself. -/
def field2tag (m : List (String × Option (List String))) (field : String) : String :=
  match m.find? (fun nt =>
      match nt.2 with
      | some ts => ts.contains field
      | none => false) with
  | some nt => nt.1
  | none => field

/-- Coercion of one native value to text inside `__getitem__`: unicode
values pass through, integers render as decimal, byte strings are decoded
as UTF-8 raising a `TagError` naming the file path and field on failure. -/
def coerceValue (path field : String) (v : NVal) : Except PErr String :=
  match v with
  | .ustr s => .ok s
  | .nint n => .ok (toString n)
  | .bytes b =>
    match utf8Decode b with
    | some s => .ok s
    | none => .error (.tagError ("Error decoding " ++ path ++ " tag " ++ field))

/-- Coercion loop of `__getitem__` over all elements of the matched field,
raising on the first failing element. -/
def coerceList (path field : String) : List NVal → Except PErr (List String)
  | [] => .ok []
  | v :: rest =>
    match coerceValue path field v with
    | .error e => .error e
    | .ok s =>
      match coerceList path field rest with
      | .error e => .error e
      | .ok l => .ok (s :: l)

/-- View of an entry value as the list iterated by `__getitem__`
(a scalar is wrapped into a singleton list). -/
def asList : EntryVal → List NVal
  | .scalar v => [v]
  | .vlist l => l

/-- Scan loop of `__getitem__` over the candidate native fields: skip absent
fields, return the coerced values of the first present one, raise `KeyError`
when the candidates are exhausted. -/
def getitemFields (p : TagParser) : List String → Except PErr (List String)
  | [] => .error (.keyError ("No such tag"))
  | f :: rest =>
    match entryLookup p.entry f with
    | none => getitemFields p rest
    | some ev => coerceList p.path f (asList ev)

/-- Embedding of `TagParser.__getitem__`. -/
def TagParser.getitem (p : TagParser) (tag : String) : Except PErr (List String) :=
  match tag2fields p.tag_map tag with
  | none => .error .typeError
  | some fields => getitemFields p fields

/-- Deletion loop of `__delitem__`: remove every candidate field present,
setting the modified flag for each removal. -/
def delFields : TagParser → List String → TagParser
  | p, [] => p
  | p, f :: rest =>
    match entryLookup p.entry f with
    | none => delFields p rest
    | some _ => delFields { p with entry := entryDelete p.entry f, modified := true } rest

/-- Embedding of `TagParser.__delitem__`. -/
def TagParser.delitem (p : TagParser) (item : String) : Except PErr TagParser :=
  match tag2fields p.tag_map item with
  | none => .error .typeError
  | some fields => .ok (delFields p fields)

/-- Embedding of `TagParser.has_key`: true iff some candidate native field
is present in the entry. -/
def TagParser.has_key (p : TagParser) (key : String) : Except PErr Bool :=
  match tag2fields p.tag_map key with
  | none => .error .typeError
  | some ks => .ok (ks.any (fun k => (entryLookup p.entry k).isSome))

/-- Embedding of `TagParser.__flatten_tag__`: read the tag, turning a
`KeyError` into `none`; an empty value list flattens to `none`, otherwise
the first element is returned (elements produced by `__getitem__` are
always text, so the final skip branch of the source is unreachable). -/
def TagParser.flatten_tag (p : TagParser) (tag : String) : Except PErr (Option String) :=
  match p.getitem tag with
  | .error (.keyError _) => .ok none
  | .error e => .error e
  | .ok [] => .ok none
  | .ok (v :: _) => .ok (some v)

/-- Embedding of `TagParser.get_tag`: raise `TagError` when no candidate
field is present, raise `TagError` when the flattened view is absent,
otherwise return the flattened scalar.  The method body assigns nothing,
so the parser state is returned unchanged in every branch. -/
def TagParser.get_tag (p : TagParser) (item : String) : Except PErr String × TagParser :=
  match p.has_key item with
  | .error e => (.error e, p)
  | .ok false => (.error (.tagError ("No such tag: " ++ item)), p)
  | .ok true =>
    match p.flatten_tag item with
    | .error e => (.error e, p)
    | .ok none => (.error (.tagError ("No such string tag: " ++ item)), p)
    | .ok (some v) => (.ok v, p)

/-- First loop of `TagParser.sort_keys`: collect the names of the standard
order list present among the keys, in the order list order. -/
def appendPresent (keys : List String) : List String → List String
  | [] => []
  | k :: rest =>
    if keys.contains k then k :: appendPresent keys rest
    else appendPresent keys rest

/-- Second loop of `TagParser.sort_keys`: collect the keys not in the
standard order list, in their original order. -/
def appendRemaining (order : List String) : List String → List String
  | [] => []
  | k :: rest =>
    if order.contains k then appendRemaining order rest
    else k :: appendRemaining order rest

/-- Embedding of `TagParser.sort_keys`.  `STANDARD_TAG_ORDER` is imported
from `musa.tags.constants`, which is not among the sources; it is passed
here as the `order` parameter. -/
def sort_keys (order keys : List String) : List String :=
  appendPresent keys order ++ appendRemaining order keys

/-- Embedding of `TagParser.keys`: map every native field of the entry back
to a canonical name and sort with `sort_keys`. -/
def TagParser.keys (p : TagParser) (order : List String) : List String :=
  sort_keys order ((p.entry.fields.map Prod.fst).map (field2tag p.tag_map))

/-- Accumulation loop of `TagParser.items` over the sorted keys: skip tags
whose flattened view is absent, propagate other errors. -/
def itemsAux (p : TagParser) : List String → Except PErr (List (String × String))
  | [] => .ok []
  | t :: rest =>
    match p.flatten_tag t with
    | .error e => .error e
    | .ok none => itemsAux p rest
    | .ok (some v) =>
      match itemsAux p rest with
      | .error e => .error e
      | .ok l => .ok ((t, v) :: l)

/-- Embedding of `TagParser.items`. -/
def TagParser.items (p : TagParser) (order : List String) :
    Except PErr (List (String × String)) :=
  itemsAux p (p.keys order)

/-- Accumulation loop of `TagParser.values` over the sorted keys. -/
def valuesAux (p : TagParser) : List String → Except PErr (List String)
  | [] => .ok []
  | t :: rest =>
    match p.flatten_tag t with
    | .error e => .error e
    | .ok none => valuesAux p rest
    | .ok (some v) =>
      match valuesAux p rest with
      | .error e => .error e
      | .ok l => .ok (v :: l)

/-- Embedding of `TagParser.values`. -/
def TagParser.values (p : TagParser) (order : List String) :
    Except PErr (List String) :=
  valuesAux p (p.keys order)

/-- Embedding of `TagParser.save`: return without touching the entry when
the modified flag is false, otherwise delegate to the entry save.  The
source never assigns `self.modified` here, so the flag is returned as it
came in. -/
def TagParser.save (p : TagParser) : TagParser :=
  if p.modified then { p with entry := p.entry.save }
  else p

/-- Python object used as the subscript of `parser[item] = value`: a tag
name string, or an `AlbumArt` instance (what `__setitem__` actually tests
with `isinstance(item, AlbumArt)`). -/
inductive PyKey where
  | str (s : String)
  | artKey (a : AlbumArt)
deriving Repr, DecidableEq

/-- Python object assigned through `__setitem__` / `set_tag`: a text value,
an `AlbumArt` payload, or some other object. -/
inductive SetVal where
  | txt (s : String)
  | artVal (a : AlbumArt)
  | otherVal (descr : String)
deriving Repr, DecidableEq

/-- View of an assigned value as the argument `import_albumart` receives
(only an `artVal` is an actual `AlbumArt` instance). -/
def SetVal.toArtArg : SetVal → ArtArg
  | .artVal a => .art a
  | .txt s => .other s
  | .otherVal d => .other d

/-- Signature of the abstract codec-specific writer `set_tag` (the base
class raises `NotImplementedError`; children implement it). -/
def SetTagImpl : Type :=
  TagParser → PyKey → SetVal → Except PErr TagParser

/-- Embedding of `TagParser.__setitem__`: the source tests
`isinstance(item, AlbumArt)` on the subscript `item` (not on `value`), and
in that branch it imports `value` into the albumart object converting an
`AlbumArtError` into a `TagError`, and then unconditionally falls through
to `set_tag(item, value)`. -/
def TagParser.setitem (setTag : SetTagImpl) (p : TagParser) (item : PyKey)
    (value : SetVal) : Except PErr TagParser :=
  match item with
  | .artKey _ =>
    match p.albumart.import_albumart value.toArtArg with
    | (.error (.albumArtError m), _) =>
      .error (.tagError ("Error setting albumart: " ++ m))
    | (.error e, _) => .error e
    | (.ok _, art) => setTag { p with albumart := art } item value
  | .str _ => setTag p item value

/-- Python argument of `update_tags`: a dictionary (association list of
key/value pairs) or some other object. -/
inductive PyData where
  | pdict (l : List (String × SetVal))
  | notDict (descr : String)

/-- Loop of `update_tags` over the dictionary items: apply `set_tag` to
each pair, stopping at the state reached so far when a call raises. -/
def run_set_tags (setTag : SetTagImpl) :
    TagParser → List (String × SetVal) → Option PErr × TagParser
  | p, [] => (none, p)
  | p, (k, v) :: rest =>
    match setTag p (.str k) v with
    | .error e => (some e, p)
    | .ok q => run_set_tags setTag q rest

/-- Embedding of `TagParser.update_tags`: raise `TagError` before any write
when the argument is not a dictionary, otherwise call `set_tag` for every
item and return the resulting modified flag. -/
def TagParser.update_tags (setTag : SetTagImpl) (p : TagParser) (d : PyData) :
    Except PErr Bool × TagParser :=
  match d with
  | .notDict _ => (.error (.tagError ("Updated tags must be a dictionary instance")), p)
  | .pdict l =>
    match run_set_tags setTag p l with
    | (some e, q) => (.error e, q)
    | (none, q) => (.ok q.modified, q)

/-- Python value assigned to a `TrackNumberingTag` attribute. -/
inductive PyIn where
  | vint (n : Int)
  | vstr (s : String)
  | vnone
  | vlist (l : List PyIn)

/-- Helper of the string branch of Python `int()`: accumulate decimal
digits, failing on any non-digit. -/
def digitsToNat : Nat → List Char → Option Nat
  | acc, [] => some acc
  | acc, c :: cs =>
    if c.isDigit then digitsToNat (acc * 10 + (c.toNat - 48)) cs
    else none

/-- Embedding of Python `int()` applied to a string: surrounding
whitespace is ignored, then an optional sign and at least one decimal
digit; anything else raises `ValueError`. -/
def pyStrToInt (s : String) : Option Int :=
  let cs := s.toList.dropWhile Char.isWhitespace
  let cs := (cs.reverse.dropWhile Char.isWhitespace).reverse
  match cs with
  | [] => none
  | c :: rest =>
    if c == '-' then
      match rest with
      | [] => none
      | _ => (digitsToNat 0 rest).map (fun n => -(n : Int))
    else if c == '+' then
      match rest with
      | [] => none
      | _ => (digitsToNat 0 rest).map (fun n => (n : Int))
    else (digitsToNat 0 cs).map (fun n => (n : Int))

/-- Embedding of Python `int(value)` over the modelled value universe:
integers pass through, strings are parsed (`ValueError` on failure), and
`None` or a list raise `TypeError`. -/
def pyIntOf : PyIn → Except PErr Int
  | .vint n => .ok n
  | .vstr s =>
    match pyStrToInt s with
    | some n => .ok n
    | none => .error .valueError
  | .vnone => .error .typeError
  | .vlist _ => .error .typeError

/-- State of a `TrackNumberingTag` (`track` kept as the track path). -/
structure TrackNumberingTag where
  track : String
  tag : String
  f_value : Option Int
  f_total : Option Int
deriving Repr, DecidableEq

/-- Coercion-and-store step of `TrackNumberingTag.__setattr__`, applied
after the list unwrap: a non-`None` value is passed through `int()` with
`ValueError`/`TypeError` converted to `TagError`, and only then is the
selected field (`isValue` picks `f_value` or `f_total`) assigned. -/
def setNumScalar (t : TrackNumberingTag) (isValue : Bool) (v1 : PyIn) :
    Except PErr Unit × TrackNumberingTag :=
  match
    (match v1 with
     | .vnone => Except.ok (none : Option Int)
     | x => (pyIntOf x).map some : Except PErr (Option Int)) with
  | .error .valueError =>
    (.error (.tagError ("TrackNumberingTag values must be integers")), t)
  | .error .typeError =>
    (.error (.tagError ("TrackNumberingTag values must be integers")), t)
  | .error e => (.error e, t)
  | .ok r =>
    if isValue then (.ok (), { t with f_value := r })
    else (.ok (), { t with f_total := r })

/-- Embedding of `TrackNumberingTag.__setattr__` for the `value` and
`total` attributes: a list argument is replaced by its first element
(`IndexError` propagates uncaught on an empty list, before the
`try` block `TagError` conversion), then `setNumScalar` runs. -/
def setNumField (t : TrackNumberingTag) (isValue : Bool) (v : PyIn) :
    Except PErr Unit × TrackNumberingTag :=
  match v with
  | .vlist [] => (.error .indexError, t)
  | .vlist (x :: _) => setNumScalar t isValue x
  | x => setNumScalar t isValue x

/-- Assignment to the `value` attribute of a `TrackNumberingTag`. -/
def TrackNumberingTag.set_value (t : TrackNumberingTag) (v : PyIn) :
    Except PErr Unit × TrackNumberingTag :=
  setNumField t true v

/-- Assignment to the `total` attribute of a `TrackNumberingTag`. -/
def TrackNumberingTag.set_total (t : TrackNumberingTag) (v : PyIn) :
    Except PErr Unit × TrackNumberingTag :=
  setNumField t false v

/-- Cached per-file instance created by `Tags.__init__`.  Modelled from the
spec: the constructor file-existence and codec-resolution checks use the
external format registry; only the stored resolved path matters here
(`normalized(os.path.realpath(path))`). -/
structure TagParserInstance where
  path : String
deriving Repr, DecidableEq

/-- Embedding of the cache update in `Tags.__init__`: the class-level
`Tags.__instances` dictionary is probed with the constructor literal
`path` argument and a new `TagParserInstance` is stored under that literal
key when the probe misses.  `resolve` stands for the external
`normalized(os.path.realpath(...))` canonicalization, applied only inside
the instance, never to the cache key. -/
def Tags.initCache (resolve : String → String)
    (cache : List (String × TagParserInstance)) (path : String) :
    List (String × TagParserInstance) :=
  if (cache.find? (fun kv => kv.1 == path)).isSome then cache
  else cache ++ [(path, { path := resolve path })]

/-! Concrete states used to evaluate the operations. -/

/-- Empty `TrackAlbumart` attached to a parser, as built by the codec
subclass constructors. -/
def emptyArt (tr : String) : TrackAlbumart :=
  { track := tr, modified := false, albumart := none }

/-- Parser over a file whose entry holds the native field `TPE2`, with
`album_artist` mapped to `[TPE2]`. -/
def c1Base : TagParser :=
  { codec := "mp3"
    path := "/music/a.mp3"
    tag_map := [("album_artist", some [("TPE2" : String)])]
    entry := { fields := [("TPE2", .scalar (.ustr "X"))], saveCount := 0 }
    modified := false
    albumart := emptyArt ("/music/a.mp3") }

/-- State of `c1Base` after `del parser[album_artist]`. -/
def c1Deleted : TagParser :=
  (c1Base.delitem ("album_artist")).toOption.getD c1Base

/-- C1: the claim says a successful `save()` resets the modified flag to
false so that the second of two consecutive `save()` calls is a no-op.
The code never resets the flag: after a successful delete sets it, the
first `save()` writes the native entry and leaves the flag true, and the
second `save()` writes again.  (The flag-false guard itself does hold:
`save()` on an unmodified parser performs no entry write.) -/
theorem c1_save_never_resets_modified :
    c1Base.delitem ("album_artist") = .ok c1Deleted ∧
    c1Deleted.modified = true ∧
    c1Base.save = c1Base ∧
    c1Deleted.save.modified = true ∧
    c1Deleted.save.entry.saveCount = 1 ∧
    c1Deleted.save.save.entry.saveCount = 2 ∧
    c1Deleted.save.save.modified = true :=
  ⟨rfl, rfl, rfl, rfl, rfl, rfl, rfl⟩

/-- Canonicalization mapping the relative and the absolute spelling of the
same file to one resolved path. -/
def c2Resolve : String → String :=
  fun _ => "/music/a.mp3"

/-- C2 counterexample: two paths with the same resolved canonical path get
two distinct cache entries, because `Tags.__init__` keys the instance
cache by the literal path string, not by the resolved path. -/
theorem c2_two_entries_for_one_resolved_path :
    c2Resolve ("a.mp3") = c2Resolve ("/music/a.mp3") ∧
    (Tags.initCache c2Resolve (Tags.initCache c2Resolve [] ("a.mp3"))
        ("/music/a.mp3")).map Prod.fst = [("a.mp3" : String), "/music/a.mp3"] ∧
    (Tags.initCache c2Resolve (Tags.initCache c2Resolve [] ("a.mp3"))
        ("/music/a.mp3")).length = 2 :=
  ⟨rfl, rfl, rfl⟩

/-- C2 (amended): the cache key is the literal constructor argument, so
re-constructing `Tags` with the same path string adds no second entry and
reuses the cached instance; distinct strings resolving to the same file
get distinct entries (see the counterexample). -/
theorem c2_cache_keyed_by_literal_path (resolve : String → String)
    (cache : List (String × TagParserInstance)) (p : String) :
    Tags.initCache resolve (Tags.initCache resolve cache p) p =
      Tags.initCache resolve cache p := by
  unfold Tags.initCache
  by_cases h : (cache.find? (fun kv => kv.1 == p)).isSome
  · simp [h]
  · simp only [h, if_false, Bool.false_eq_true]
    have h2 : ((cache ++ [(p, ({ path := resolve p } : TagParserInstance))]).find?
        (fun kv => kv.1 == p)).isSome := by
      rw [List.find?_append]
      cases hc : cache.find? (fun kv => kv.1 == p) with
      | some v => simp [hc] at h
      | none => simp [List.find?]
    simp [h2]

/-- Scan helper: absent candidate fields at the front of the field list are
skipped by the `__getitem__` loop. -/
theorem getitemFields_append_absent (p : TagParser) (pre l : List String)
    (h : ∀ g ∈ pre, entryLookup p.entry g = none) :
    getitemFields p (pre ++ l) = getitemFields p l := by
  induction pre with
  | nil => rfl
  | cons f rest ih =>
    have hf : entryLookup p.entry f = none := h f (by simp)
    simp only [List.cons_append, getitemFields, hf]
    exact ih (fun g hg => h g (by simp [hg]))

/-- Scan helper: when every candidate field is absent the loop falls
through to the `KeyError`. -/
theorem getitemFields_all_absent (p : TagParser) (fs : List String)
    (h : ∀ g ∈ fs, entryLookup p.entry g = none) :
    getitemFields p fs = .error (.keyError ("No such tag")) := by
  induction fs with
  | nil => rfl
  | cons f rest ih =>
    have hf : entryLookup p.entry f = none := h f (by simp)
    simp only [getitemFields, hf]
    exact ih (fun g hg => h g (by simp [hg]))

/-- Computation rule of monadic bind on an `Except` success. -/
theorem except_bind_ok {α β : Type} (a : α) (f : α → Except PErr β) :
    (Except.ok a >>= f) = f a :=
  rfl

/-- Computation rule of monadic bind on an `Except` failure. -/
theorem except_bind_error {α β : Type} (e : PErr) (f : α → Except PErr β) :
    ((Except.error e : Except PErr α) >>= f) = .error e :=
  rfl

/-- Computation rule of `pure` in the `Except` monad. -/
theorem except_pure {α : Type} (a : α) :
    (pure a : Except PErr α) = .ok a :=
  rfl

/-- Coercion loop helper: the element loop of `__getitem__` is the
monadic map of the single-element coercion. -/
theorem coerceList_eq_mapM (path field : String) (l : List NVal) :
    coerceList path field l = l.mapM (coerceValue path field) := by
  induction l with
  | nil => rfl
  | cons v rest ih =>
    rw [List.mapM_cons, ← ih]
    cases hv : coerceValue path field v with
    | error e => simp [coerceList, hv, except_bind_error]
    | ok s =>
      cases hr : coerceList path field rest with
      | error e => simp [coerceList, hv, hr, except_bind_ok, except_bind_error]
      | ok xs => simp [coerceList, hv, hr, except_bind_ok, except_pure]

/-- C3: reading a canonical tag resolves it through the tag map (falling
back to the literal singleton when unmapped), scans the candidate native
fields in order, and for the first present field returns every element
coerced to text: unicode unchanged, integers as decimal text, byte strings
UTF-8-decoded with a `TagError` naming the file and field on decode
failure; when no candidate field is present it raises the not-found
`KeyError`. -/
theorem c3_get_scans_fields_and_coerces (p : TagParser) (t f : String)
    (pre rest : List String) (ev : EntryVal)
    (hf : tag2fields p.tag_map t = some (pre ++ f :: rest))
    (hpre : ∀ g ∈ pre, entryLookup p.entry g = none)
    (hev : entryLookup p.entry f = some ev) :
    p.getitem t = (asList ev).mapM (coerceValue p.path f) ∧
    (∀ v, asList (.scalar v) = [v]) ∧
    (∀ n, coerceValue p.path f (.nint n) = .ok (toString n)) ∧
    (∀ s, coerceValue p.path f (.ustr s) = .ok s) ∧
    (∀ b, utf8Decode b = none →
      coerceValue p.path f (.bytes b) =
        .error (.tagError ("Error decoding " ++ p.path ++ " tag " ++ f))) ∧
    (∀ b s, utf8Decode b = some s → coerceValue p.path f (.bytes b) = .ok s) ∧
    (∀ t2, p.tag_map.find? (fun nt => nt.1 == t2) = none →
      tag2fields p.tag_map t2 = some [t2]) ∧
    (∀ t3 fs, tag2fields p.tag_map t3 = some fs →
      (∀ g ∈ fs, entryLookup p.entry g = none) →
      p.getitem t3 = .error (.keyError ("No such tag"))) := by
  refine ⟨?_, fun v => rfl, fun n => rfl, fun s => rfl, ?_, ?_, ?_, ?_⟩
  · show p.getitem t = _
    unfold TagParser.getitem
    rw [hf]
    show getitemFields p (pre ++ f :: rest) = _
    rw [getitemFields_append_absent p pre (f :: rest) hpre]
    simp only [getitemFields, hev]
    exact coerceList_eq_mapM p.path f (asList ev)
  · intro b hb
    simp [coerceValue, hb]
  · intro b s hb
    simp [coerceValue, hb]
  · intro t2 h2
    simp [tag2fields, h2]
  · intro t3 fs h3 habs
    unfold TagParser.getitem
    rw [h3]
    exact getitemFields_all_absent p fs habs

/-- Parser whose entry holds `TPE2` with an integer, a unicode string and a
byte string, and maps `album_artist` to the probe list `[TPE0, TPE2]`. -/
def c3P : TagParser :=
  { codec := "mp3"
    path := "/m/a.mp3"
    tag_map := [("album_artist", some [("TPE0" : String), "TPE2"])]
    entry :=
      { fields := [("TPE2", .vlist [.nint 5, .ustr "x", .bytes [65]])]
        saveCount := 0 }
    modified := false
    albumart := emptyArt ("/m/a.mp3") }

/-- Witness for C3: concrete read skipping the absent `TPE0`, coercing the
integer 5 to the text 5, passing the unicode value through, and decoding
the byte 65 to the letter A. -/
theorem c3_get_scans_fields_and_coerces_witness :
    c3P.getitem ("album_artist") =
      (asList (.vlist [.nint 5, .ustr "x", .bytes [65]])).mapM
        (coerceValue ("/m/a.mp3") ("TPE2")) ∧
    c3P.getitem ("album_artist") = .ok [("5" : String), "x", "A"] :=
  ⟨(c3_get_scans_fields_and_coerces c3P ("album_artist") ("TPE2")
      [("TPE0" : String)] [] (.vlist [.nint 5, .ustr "x", .bytes [65]]) rfl
      (by intro g hg; simp at hg; subst hg; rfl) rfl).1,
   rfl⟩

/-- Loaded artwork payload assigned as a value. -/
def c4Art : AlbumArt :=
  { image := some [1, 2, 3] }

/-- Parser with no artwork payload stored. -/
def c4P : TagParser :=
  { codec := "mp3"
    path := "/music/b.mp3"
    tag_map := []
    entry := { fields := [], saveCount := 0 }
    modified := false
    albumart := emptyArt ("/music/b.mp3") }

/-- Codec writer probe that records nothing: it returns the parser it was
given unchanged, so the result exposes exactly what `__setitem__` did. -/
def c4Probe : SetTagImpl :=
  fun p _ _ => .ok p

/-- C4 (code bug): `__setitem__` tests `isinstance(item, AlbumArt)` on the
subscript, not on the assigned value, and falls through to `set_tag`
unconditionally.  Assigning a loaded `AlbumArt` payload under an ordinary
string tag name therefore goes straight to the codec writer and the
artwork import is never invoked: the resulting parser still has no
artwork payload stored.  For every string key the operation is exactly the
`set_tag` call, whatever the value type. -/
theorem c4_artwork_value_not_imported :
    c4Art.is_loaded = true ∧
    TagParser.setitem c4Probe c4P (.str ("coverart")) (.artVal c4Art) = .ok c4P ∧
    c4P.albumart.albumart = none ∧
    (∀ setTag : SetTagImpl, ∀ p : TagParser, ∀ s : String, ∀ value : SetVal,
      TagParser.setitem setTag p (.str s) value = setTag p (.str s) value) :=
  ⟨rfl, rfl, rfl, fun _ _ _ _ => rfl⟩

/-- Loop helper: the first loop of `sort_keys` collects the order-list
members present among the keys, i.e. filters the order list. -/
theorem appendPresent_eq_filter (keys l : List String) :
    appendPresent keys l = l.filter (fun k => keys.contains k) := by
  induction l with
  | nil => rfl
  | cons k rest ih =>
    cases h : keys.contains k <;> simp [appendPresent, h, ih, List.filter_cons]

/-- Loop helper: the second loop of `sort_keys` collects the keys outside
the order list, i.e. filters the key list. -/
theorem appendRemaining_eq_filter (order l : List String) :
    appendRemaining order l = l.filter (fun k => !order.contains k) := by
  induction l with
  | nil => rfl
  | cons k rest ih =>
    cases h : order.contains k <;> simp [appendRemaining, h, ih, List.filter_cons]

/-- Count helper: filtering out the order list members preserves the
multiplicity of every key outside the order list. -/
theorem count_filter_not_in (order : List String) (k : String)
    (hk : k ∉ order) (l : List String) :
    (l.filter (fun k2 => !order.contains k2)).count k = l.count k := by
  induction l with
  | nil => rfl
  | cons m rest ih =>
    simp only [Bool.not_eq_true] at ih ⊢
    simp at ih
    by_cases hm : m ∈ order
    · have h2 : m ≠ k := fun he => hk (he ▸ hm)
      simp [List.filter_cons, hm, List.count_cons, h2, ih]
    · simp [List.filter_cons, hm, List.count_cons, ih]

/-- C5 (amended): `keys()` maps every native field present back to a
canonical name and orders the names of the standard order list first, in
that list order and (when the standard list has no duplicates) at most
once each; the remaining names follow in their original encounter order
with their original multiplicity — a canonical name outside the standard
list that several present fields map to is NOT deduplicated. -/
theorem c5_keys_order_amended (order : List String) (p : TagParser)
    (mapped : List String)
    (hm : mapped = (p.entry.fields.map Prod.fst).map (field2tag p.tag_map))
    (hord : order.Nodup) :
    p.keys order =
      order.filter (fun k => mapped.contains k) ++
        mapped.filter (fun k => !order.contains k) ∧
    (order.filter (fun k => mapped.contains k)).Nodup ∧
    (mapped.filter (fun k => !order.contains k)).Sublist mapped ∧
    (∀ k, k ∉ order →
      (mapped.filter (fun k2 => !order.contains k2)).count k = mapped.count k) ∧
    (∀ k, k ∈ p.keys order ↔
      k ∈ order.filter (fun k2 => mapped.contains k2) ∨
        k ∈ mapped.filter (fun k2 => !order.contains k2)) := by
  have hkeys : p.keys order =
      order.filter (fun k => mapped.contains k) ++
        mapped.filter (fun k => !order.contains k) := by
    rw [hm]
    unfold TagParser.keys sort_keys
    rw [appendPresent_eq_filter, appendRemaining_eq_filter]
  refine ⟨hkeys, hord.filter _, List.filter_sublist _, ?_, ?_⟩
  · intro k hk
    exact count_filter_not_in order k hk mapped
  · intro k
    rw [hkeys, List.mem_append]

/-- Parser mapping the non-standard canonical name `mytag` to two native
fields that are both present. -/
def c5P : TagParser :=
  { codec := "flac"
    path := "/music/c.flac"
    tag_map := [("mytag", some [("F1" : String), "F2"])]
    entry :=
      { fields := [("F1", .scalar (.ustr "a")), ("F2", .scalar (.ustr "b"))]
        saveCount := 0 }
    modified := false
    albumart := emptyArt ("/music/c.flac") }

/-- C5 counterexample: both native fields map back to the canonical name
`mytag`, and `keys()` returns it twice — the result is not deduplicated as
the claim states. -/
theorem c5_keys_not_deduplicated :
    c5P.keys [("album" : String)] = [("mytag" : String), "mytag"] ∧
    ¬ (c5P.keys [("album" : String)]).Nodup :=
  ⟨rfl, by decide⟩

/-- Witness for C5 (amended) at a concrete parser: the standard-order part
is empty and the encounter-order part keeps both occurrences. -/
theorem c5_keys_order_amended_witness :
    c5P.keys [("album" : String)] =
      ([("album" : String)].filter
          (fun k => [("mytag" : String), "mytag"].contains k)) ++
        ([("mytag" : String), "mytag"].filter
          (fun k => !([("album" : String)].contains k))) :=
  (c5_keys_order_amended [("album" : String)] c5P [("mytag" : String), "mytag"]
    rfl (by decide)).1

/-- Fresh artwork container of a parser. -/
def c6Track : TrackAlbumart :=
  { track := "/music/d.mp3", modified := false, albumart := none }

/-- Loaded artwork payload. -/
def c6Art : AlbumArt :=
  { image := some [0, 1] }

/-- C6 counterexample: a successful import stores the payload but leaves
the artwork object modified flag false — the import does not set it as
the claim states. -/
theorem c6_import_leaves_modified_false :
    c6Art.is_loaded = true ∧
    (c6Track.import_albumart (.art c6Art)).1 = .ok () ∧
    (c6Track.import_albumart (.art c6Art)).2.albumart = some c6Art ∧
    c6Track.modified = false ∧
    (c6Track.import_albumart (.art c6Art)).2.modified = false :=
  ⟨rfl, rfl, rfl, rfl, rfl⟩

/-- C6 (amended): importing a wrong-typed or unloaded payload raises
`TagError` and leaves the payload and flag unchanged; a loaded payload is
stored; in every case the artwork object own modified flag is left
exactly as it was (it is never set by the base import; the parent parser
text-tag flag is a separate field and is untouched by construction). -/
theorem c6_import_albumart_amended (t : TrackAlbumart) (a : AlbumArt) (d : String) :
    t.import_albumart (.other d) =
      (.error (.tagError ("Albumart must be AlbumArt instance")), t) ∧
    (a.is_loaded = false →
      t.import_albumart (.art a) =
        (.error (.tagError ("Albumart to import is not loaded with image.")), t)) ∧
    (a.is_loaded = true →
      t.import_albumart (.art a) = (.ok (), { t with albumart := some a })) ∧
    (∀ arg : ArtArg, (t.import_albumart arg).2.modified = t.modified) := by
  refine ⟨rfl, ?_, ?_, ?_⟩
  · intro h
    simp [TrackAlbumart.import_albumart, h]
  · intro h
    simp [TrackAlbumart.import_albumart, h]
  · intro arg
    cases arg with
    | other d2 => rfl
    | art a2 => cases h : a2.is_loaded <;> simp [TrackAlbumart.import_albumart, h]

/-- Witness for C6 (amended): a loaded payload is stored, an unloaded one
is rejected with the state unchanged. -/
theorem c6_import_albumart_amended_witness :
    c6Track.import_albumart (.art c6Art) =
      (.ok (), { c6Track with albumart := some c6Art }) ∧
    c6Track.import_albumart (.art { image := none }) =
      (.error (.tagError ("Albumart to import is not loaded with image.")), c6Track) :=
  ⟨(c6_import_albumart_amended c6Track c6Art ("x")).2.2.1 rfl,
   (c6_import_albumart_amended c6Track { image := none } ("x")).2.1 rfl⟩

/-- Numbering tag holding a current value. -/
def c7Num : TrackNumberingTag :=
  { track := "/music/e.mp3", tag := "tracknumber", f_value := some 1, f_total := none }

/-- C7 counterexample: inputs outside the claimed accepted shapes are
accepted by the code — a two-element list (its first element is stored)
and a bare integer-parsable string — where the claim requires a `TagError`
rejection. -/
theorem c7_inputs_outside_claim_accepted :
    c7Num.set_value (.vlist [.vint 3, .vint 4]) =
      (.ok (), { c7Num with f_value := some 3 }) ∧
    c7Num.set_total (.vstr ("7")) = (.ok (), { c7Num with f_total := some 7 }) :=
  ⟨rfl, rfl⟩

/-- Frame helper: when the coercion step rejects a value the numbering tag
is returned unchanged. -/
theorem setNumScalar_error_frame (t : TrackNumberingTag) (b : Bool) (v : PyIn)
    (e : PErr) (h : (setNumScalar t b v).1 = .error e) :
    (setNumScalar t b v).2 = t := by
  cases v with
  | vint n => cases b <;> simp [setNumScalar, pyIntOf, Except.map] at h
  | vnone => cases b <;> simp [setNumScalar] at h
  | vstr s =>
    cases hs : pyStrToInt s with
    | none => simp [setNumScalar, pyIntOf, hs, Except.map]
    | some m => cases b <;> simp [setNumScalar, pyIntOf, hs, Except.map] at h
  | vlist l => simp [setNumScalar, pyIntOf, Except.map]

/-- Frame helper: a rejected attribute assignment leaves the numbering tag
unchanged. -/
theorem setNumField_error_frame (t : TrackNumberingTag) (b : Bool) (v : PyIn)
    (e : PErr) (h : (setNumField t b v).1 = .error e) :
    (setNumField t b v).2 = t := by
  cases v with
  | vint n => exact setNumScalar_error_frame t b (.vint n) e h
  | vstr s => exact setNumScalar_error_frame t b (.vstr s) e h
  | vnone => exact setNumScalar_error_frame t b .vnone e h
  | vlist l =>
    cases l with
    | nil => rfl
    | cons x xs => exact setNumScalar_error_frame t b x e h

/-- C7 (amended): a `value`/`total` assignment accepts an integer, `None`,
an integer-parsable string, or a non-empty list of ANY length whose first
element is such a value (the first element is stored); accepted non-null
inputs are stored as integers and `None` clears the field; non-coercible
inputs (including a list as first element) raise `TagError` leaving the
field unchanged; an empty list raises an uncaught `IndexError`, not a
`TagError`. -/
theorem c7_numbering_assignment_amended (t : TrackNumberingTag) (b : Bool)
    (n : Int) (s : String) (x : PyIn) (xs l : List PyIn) :
    setNumField t b (.vint n) =
      (.ok (), if b then { t with f_value := some n } else { t with f_total := some n }) ∧
    setNumField t b .vnone =
      (.ok (), if b then { t with f_value := none } else { t with f_total := none }) ∧
    (pyStrToInt s = none →
      setNumField t b (.vstr s) =
        (.error (.tagError ("TrackNumberingTag values must be integers")), t)) ∧
    (∀ m : Int, pyStrToInt s = some m →
      setNumField t b (.vstr s) =
        (.ok (), if b then { t with f_value := some m } else { t with f_total := some m })) ∧
    setNumField t b (.vlist []) = (.error .indexError, t) ∧
    setNumField t b (.vlist (x :: xs)) = setNumScalar t b x ∧
    setNumScalar t b (.vlist l) =
      (.error (.tagError ("TrackNumberingTag values must be integers")), t) ∧
    (∀ v : PyIn, ∀ e : PErr,
      (setNumField t b v).1 = .error e → (setNumField t b v).2 = t) := by
  refine ⟨by cases b <;> rfl, by cases b <;> rfl, ?_, ?_, rfl, rfl, rfl,
    fun v e h => setNumField_error_frame t b v e h⟩
  · intro h
    simp [setNumField, setNumScalar, pyIntOf, h, Except.map]
  · intro m h
    cases b <;> simp [setNumField, setNumScalar, pyIntOf, h, Except.map]

/-- Witness for C7 (amended): a parsable string is stored as its integer,
an unparsable one is rejected leaving the tag unchanged. -/
theorem c7_numbering_assignment_amended_witness :
    setNumField c7Num true (.vstr ("12")) = (.ok (), { c7Num with f_value := some 12 }) ∧
    setNumField c7Num true (.vstr ("oops")) =
      (.error (.tagError ("TrackNumberingTag values must be integers")), c7Num) :=
  ⟨(c7_numbering_assignment_amended c7Num true 0 ("12") .vnone [] []).2.2.2.1 12 rfl,
   (c7_numbering_assignment_amended c7Num true 0 ("oops") .vnone [] []).2.2.1 rfl⟩

/-- C8: requesting a canonical tag none of whose candidate native fields
is present fails with the not-found `TagError` and leaves the parser — its
modified flag, its native entry, and the value every other tag reads —
unchanged. -/
theorem c8_get_tag_missing_is_isolated (p : TagParser) (t : String)
    (h : p.has_key t = .ok false) :
    (p.get_tag t).1 = .error (.tagError ("No such tag: " ++ t)) ∧
    (p.get_tag t).2 = p ∧
    (p.get_tag t).2.modified = p.modified ∧
    (p.get_tag t).2.entry = p.entry ∧
    (∀ t2, ((p.get_tag t).2).getitem t2 = p.getitem t2) := by
  have h2 : p.get_tag t = (.error (.tagError ("No such tag: " ++ t)), p) := by
    unfold TagParser.get_tag
    rw [h]
  rw [h2]
  exact ⟨rfl, rfl, rfl, rfl, fun t2 => rfl⟩

/-- Parser whose map sends `album_artist` to the absent field `TPE2`. -/
def c8P : TagParser :=
  { codec := "mp3"
    path := "/music/f.mp3"
    tag_map := [("album_artist", some [("TPE2" : String)])]
    entry := { fields := [("TIT2", .scalar (.ustr "hello"))], saveCount := 0 }
    modified := false
    albumart := emptyArt ("/music/f.mp3") }

/-- Witness for C8 at a concrete parser with the tag fields absent. -/
theorem c8_get_tag_missing_is_isolated_witness :
    (c8P.get_tag ("album_artist")).1 =
      .error (.tagError ("No such tag: " ++ "album_artist")) ∧
    (c8P.get_tag ("album_artist")).2 = c8P :=
  ⟨(c8_get_tag_missing_is_isolated c8P ("album_artist") rfl).1,
   (c8_get_tag_missing_is_isolated c8P ("album_artist") rfl).2.1⟩

/-- Loop helper: when the sequential application of `set_tag` to every
pair succeeds with final state `q`, the `update_tags` loop reaches `q`
without raising. -/
theorem run_set_tags_of_foldlM_ok (setTag : SetTagImpl) (l : List (String × SetVal)) :
    ∀ p q : TagParser,
      l.foldlM (fun acc kv => setTag acc (.str kv.1) kv.2) p = .ok q →
      run_set_tags setTag p l = (none, q) := by
  induction l with
  | nil =>
    intro p q h
    have h2 : (Except.ok p : Except PErr TagParser) = .ok q := h
    cases Except.ok.inj h2
    rfl
  | cons kv rest ih =>
    intro p q h
    rw [List.foldlM_cons] at h
    cases hs : setTag p (.str kv.1) kv.2 with
    | error e =>
      rw [hs, except_bind_error] at h
      exact Except.noConfusion h
    | ok p2 =>
      rw [hs, except_bind_ok] at h
      simpa [run_set_tags, hs] using ih p2 q h

/-- C9: `update_tags` raises `TagError` before setting anything when its
argument is not a dictionary (the parser comes back unchanged), and on a
dictionary it applies `set_tag` to every key/value pair in order and
returns the modified flag of the resulting parser. -/
theorem c9_update_tags_contract (setTag : SetTagImpl) (p q : TagParser)
    (l : List (String × SetVal)) (s : String)
    (h : l.foldlM (fun acc kv => setTag acc (.str kv.1) kv.2) p = .ok q) :
    TagParser.update_tags setTag p (.notDict s) =
      (.error (.tagError ("Updated tags must be a dictionary instance")), p) ∧
    TagParser.update_tags setTag p (.pdict l) = (.ok q.modified, q) := by
  refine ⟨rfl, ?_⟩
  have hr := run_set_tags_of_foldlM_ok setTag l p q h
  simp [TagParser.update_tags, hr]

/-- Codec writer used by the C9 witness: append the pair as a native field
and mark the parser modified; anything but a text value is rejected. -/
def c9Impl : SetTagImpl :=
  fun p k v =>
    match k, v with
    | .str s, .txt w =>
      .ok { p with
        entry := { p.entry with fields := p.entry.fields ++ [(s, .scalar (.ustr w))] }
        modified := true }
    | _, _ => .error (.tagError ("unsupported value"))

/-- Parser with an empty entry. -/
def c9P : TagParser :=
  { codec := "mp3"
    path := "/music/g.mp3"
    tag_map := []
    entry := { fields := [], saveCount := 0 }
    modified := false
    albumart := emptyArt ("/music/g.mp3") }

/-- Dictionary items passed to `update_tags` by the C9 witness. -/
def c9Pairs : List (String × SetVal) :=
  [("album", .txt ("X")), ("artist", .txt ("Y"))]

/-- Final parser after both writes. -/
def c9Q : TagParser :=
  ((c9Pairs.foldlM (fun acc kv => c9Impl acc (.str kv.1) kv.2) c9P).toOption).getD c9P

/-- Witness for C9: updating with a two-entry dictionary applies both
writes and returns the set modified flag. -/
theorem c9_update_tags_contract_witness :
    TagParser.update_tags c9Impl c9P (.pdict c9Pairs) = (.ok c9Q.modified, c9Q) ∧
    c9Q.modified = true :=
  ⟨(c9_update_tags_contract c9Impl c9P c9Q c9Pairs ("nope") rfl).2, rfl⟩

/-- Loop helper: over any key list the `values` loop collects exactly the
second components collected by the `items` loop. -/
theorem valuesAux_eq_itemsAux (p : TagParser) (ts : List String) :
    valuesAux p ts = (itemsAux p ts).map (fun l => l.map Prod.snd) := by
  induction ts with
  | nil => rfl
  | cons t rest ih =>
    cases hf : p.flatten_tag t with
    | error e => simp [valuesAux, itemsAux, hf, Except.map]
    | ok o =>
      cases o with
      | none => simp [valuesAux, itemsAux, hf, ih]
      | some v =>
        cases hi : itemsAux p rest with
        | error e2 => simp [valuesAux, itemsAux, hf, ih, hi, Except.map]
        | ok li => simp [valuesAux, itemsAux, hf, ih, hi, Except.map]

/-- C10: `values()` returns exactly the second components of the pairs
returned by `items()`, in the same order — both iterate the sorted keys
and skip tags whose flattened scalar view is absent. -/
theorem c10_values_eq_items_snd (p : TagParser) (order : List String) :
    p.values order = (p.items order).map (fun l => l.map Prod.snd) :=
  valuesAux_eq_itemsAux p (p.keys order)

end Musa
